import Mathlib

/-
Verification of the laser-controller hardware-control layer.

The definitions below are a shallow embedding of the Python sources:
  src/api/modules/grbl.py      (protocol driver, command building, settings)
  src/api/modules/limits.py    (limit-switch telemetry reader)
  src/api/schemas/grbl.py      (settings table, settings cache, update path)
  src/api/services/calibration.py (homing / calibration sequences)

Serial channels are modelled as explicit line streams, wall-clock
deadlines as the finite list of lines the channel yields before the
deadline, and serial side effects as explicit action traces.  Machine
floats are modelled as rationals.  Python string built-ins are
re-implemented structurally so that concrete instances evaluate inside
the kernel.
-/

namespace LaserController

/-! ## Python string primitives

Structural models of the Python `str` built-ins used by the sources.
-/

/-- Drop leading whitespace characters. -/
def dropWs : List Char → List Char
  | [] => []
  | c :: cs => if c.isWhitespace then dropWs cs else c :: cs

/-- Tail-recursive reversal of a character list. -/
def revChars : List Char → List Char → List Char
  | [], acc => acc
  | c :: cs, acc => revChars cs (c :: acc)

/-- Model of Python `str.strip()`: remove leading and trailing whitespace. -/
def pyStrip (s : String) : String :=
  ⟨revChars (dropWs (revChars (dropWs s.data) [])) []⟩

/-- Model of Python `str.lower()` (ASCII case folding). -/
def pyLower (s : String) : String :=
  ⟨s.data.map Char.toLower⟩

/-- Helper for `pyStartsWith`: the first list is a leading segment of the second. -/
def leadsList : List Char → List Char → Bool
  | [], _ => true
  | _ :: _, [] => false
  | p :: ps, c :: cs => p == c && leadsList ps cs

/-- Model of Python `str.startswith(p)`. -/
def pyStartsWith (s p : String) : Bool :=
  leadsList p.data s.data

/-- Helper for `pySplitChar`: split a char list at every occurrence of `sep`. -/
def splitCharAux (sep : Char) : List Char → List Char → List String
  | [], acc => [⟨revChars acc []⟩]
  | c :: cs, acc =>
    if c == sep then ⟨revChars acc []⟩ :: splitCharAux sep cs []
    else splitCharAux sep cs (c :: acc)

/-- Model of Python `str.split(sep)` for a one-character separator. -/
def pySplitChar (s : String) (sep : Char) : List String :=
  splitCharAux sep s.data []

/-- Model of Python `c in s` membership test for a single character. -/
def pyContainsChar (s : String) (c : Char) : Bool :=
  s.data.contains c

/-- Accumulate a decimal digit list into a natural number. -/
def digitsToNat : List Char → Nat → Nat
  | [], acc => acc
  | c :: cs, acc => digitsToNat cs (acc * 10 + (c.toNat - 48))

/-- Every character of the list is a decimal digit. -/
def allDigits (l : List Char) : Bool :=
  l.all Char.isDigit

/-- Model of Python `int(s)`: optional surrounding whitespace, optional
sign, then one or more decimal digits; `none` models a raised
`ValueError`.  (Digit-group underscores are not modelled.) -/
def pyInt? (s : String) : Option Int :=
  let t := pyStrip s
  let neg := pyStartsWith t "-"
  let core : String := if neg || pyStartsWith t "+" then ⟨t.data.drop 1⟩ else t
  if core.data.isEmpty || !(allDigits core.data) then none
  else
    let n : Nat := digitsToNat core.data 0
    some (if neg then -(n : Int) else (n : Int))

/-- Model of Python `float(s)` on plain decimal literals: optional
surrounding whitespace, optional sign, digits with at most one decimal
point and at least one digit overall; `none` models a raised
`ValueError`.  (Exponents, `inf`/`nan` and digit-group underscores are
not modelled; the settings-dump values this program parses are plain
decimals.) -/
def pyFloat? (s : String) : Option Rat :=
  let t := pyStrip s
  let neg := pyStartsWith t "-"
  let core : String := if neg || pyStartsWith t "+" then ⟨t.data.drop 1⟩ else t
  match pySplitChar core '.' with
  | [ip] =>
    if ip.data.isEmpty || !(allDigits ip.data) then none
    else
      let n : Nat := digitsToNat ip.data 0
      some (mkRat (if neg then -(n : Int) else (n : Int)) 1)
  | [ip, fp] =>
    if (ip.data.isEmpty && fp.data.isEmpty)
        || !(allDigits ip.data) || !(allDigits fp.data) then none
    else
      let scale : Nat := 10 ^ fp.data.length
      let n : Nat := digitsToNat ip.data 0 * scale + digitsToNat fp.data 0
      some (mkRat (if neg then -(n : Int) else (n : Int)) scale)
  | _ => none

/-! ## G-code command building

Embeds `move_relative`, `move_absolute` and `set_work_coordinate_offset`
from `src/api/modules/grbl.py`.  A command line is a list of parts; a
part records which axis letter the Python code prepends to the
formatted value (`f"X{x}"`, `f"Y{y}"`, ...).  Values are carried as
their formatted strings, so that "identical value" in the source
(`f"Y{y}"` and `f"Z{y}"` formatting the same `y`) is identity of the
carried string.
-/

inductive GPart where
  | word (s : String)
  | X (v : String)
  | Y (v : String)
  | Z (v : String)
  | F (v : String)
deriving DecidableEq

/-- Render one command part the way the Python f-strings do. -/
def GPart.render : GPart → String
  | .word s => s
  | .X v => "X" ++ v
  | .Y v => "Y" ++ v
  | .Z v => "Z" ++ v
  | .F v => "F" ++ v

/-- A part is a Y-axis component. -/
def isYPart : GPart → Bool
  | .Y _ => true
  | _ => false

/-- Parts of the command built by `move_relative` (grbl.py lines 155-178):
`G1`, then `X` if given, then `Y` duplicated into `Z` if `y` is given,
else `Z` if given, then `F` if given. -/
def moveRelativeParts (x y z feed : Option String) : List GPart :=
  [GPart.word "G1"]
    ++ (match x with | some a => [GPart.X a] | none => [])
    ++ (match y with
        | some b => [GPart.Y b, GPart.Z b]
        | none => match z with | some c => [GPart.Z c] | none => [])
    ++ (match feed with | some f => [GPart.F f] | none => [])

/-- Parts of the command built by `move_absolute` (grbl.py lines 180-203);
the body is identical to `move_relative` (the positioning mode is set
separately by G90/G91). -/
def moveAbsoluteParts (x y z feed : Option String) : List GPart :=
  [GPart.word "G1"]
    ++ (match x with | some a => [GPart.X a] | none => [])
    ++ (match y with
        | some b => [GPart.Y b, GPart.Z b]
        | none => match z with | some c => [GPart.Z c] | none => [])
    ++ (match feed with | some f => [GPart.F f] | none => [])

/-- Parts of the command built by `set_work_coordinate_offset`
(grbl.py lines 223-243): `G92`, then `X`, then `Y` duplicated into `Z`
if `y` is given, else `Z` if given. -/
def setWorkCoordinateOffsetParts (x y z : Option String) : List GPart :=
  [GPart.word "G92"]
    ++ (match x with | some a => [GPart.X a] | none => [])
    ++ (match y with
        | some b => [GPart.Y b, GPart.Z b]
        | none => match z with | some c => [GPart.Z c] | none => [])

/-- The emitted command line: parts joined by spaces plus a newline,
as in `" ".join(parts) + "\n"`. -/
def renderParts (ps : List GPart) : String :=
  String.intercalate " " (ps.map GPart.render) ++ "\n"

/-- Command line emitted by `move_relative`. -/
def moveRelativeCommand (x y z feed : Option String) : String :=
  renderParts (moveRelativeParts x y z feed)

/-- Command line emitted by `move_absolute`. -/
def moveAbsoluteCommand (x y z feed : Option String) : String :=
  renderParts (moveAbsoluteParts x y z feed)

/-- Command line emitted by `set_work_coordinate_offset`. -/
def setWorkCoordinateOffsetCommand (x y z : Option String) : String :=
  renderParts (setWorkCoordinateOffsetParts x y z)

/-- C1: for every argument combination passed to `move_relative`,
`move_absolute` or `set_work_coordinate_offset`: when `y` is supplied,
the built command contains a Z component carrying the identical value,
and any explicitly supplied `z` argument is ignored (the parts are the
same as with `z = None`); when `y` is absent and `z` is supplied, the
command contains the given Z component and no Y component. -/
theorem c1_y_z_coupling (x z feed : Option String) (v w : String) :
    (GPart.Y v ∈ moveRelativeParts x (some v) z feed
      ∧ GPart.Z v ∈ moveRelativeParts x (some v) z feed
      ∧ moveRelativeParts x (some v) z feed = moveRelativeParts x (some v) none feed
      ∧ GPart.Z w ∈ moveRelativeParts x none (some w) feed
      ∧ (moveRelativeParts x none (some w) feed).any isYPart = false)
    ∧ (GPart.Y v ∈ moveAbsoluteParts x (some v) z feed
      ∧ GPart.Z v ∈ moveAbsoluteParts x (some v) z feed
      ∧ moveAbsoluteParts x (some v) z feed = moveAbsoluteParts x (some v) none feed
      ∧ GPart.Z w ∈ moveAbsoluteParts x none (some w) feed
      ∧ (moveAbsoluteParts x none (some w) feed).any isYPart = false)
    ∧ (GPart.Y v ∈ setWorkCoordinateOffsetParts x (some v) z
      ∧ GPart.Z v ∈ setWorkCoordinateOffsetParts x (some v) z
      ∧ setWorkCoordinateOffsetParts x (some v) z = setWorkCoordinateOffsetParts x (some v) none
      ∧ GPart.Z w ∈ setWorkCoordinateOffsetParts x none (some w)
      ∧ (setWorkCoordinateOffsetParts x none (some w)).any isYPart = false) := by
  rcases x with _ | xv <;> rcases z with _ | zv <;> rcases feed with _ | fv <;>
    simp [moveRelativeParts, moveAbsoluteParts, setWorkCoordinateOffsetParts, isYPart]

/-! ## Settings name/index table

Embeds `SETTING_NUM_TO_KEY` and `KEY_TO_SETTING_NUM` from
`src/api/schemas/grbl.py`.  The source builds `KEY_TO_SETTING_NUM` by
the dict comprehension `{v: k for k, v in SETTING_NUM_TO_KEY.items()}`,
so for a duplicated name the LAST index in iteration order wins; that
is modelled by searching the reversed entry list.
-/

def SETTING_NUM_TO_KEY : List (Nat × String) :=
  [(0, "step_pulse_time"),
   (1, "step_idle_delay"),
   (2, "step_port_invert_mask"),
   (3, "direction_port_invert_mask"),
   (4, "step_enable_invert"),
   (5, "limit_pins_invert"),
   (6, "probe_pin_invert"),
   (10, "status_report_mask"),
   (11, "junction_deviation"),
   (12, "arc_tolerance"),
   (13, "arc_tolerance"),
   (20, "report_inches"),
   (21, "soft_limits"),
   (22, "hard_limits"),
   (23, "homing_cycle"),
   (24, "homing_dir_invert_mask"),
   (25, "homing_feed_rate"),
   (26, "homing_seek_rate"),
   (27, "homing_debounce_delay"),
   (28, "homing_pull_off"),
   (30, "max_spindle_speed"),
   (31, "min_spindle_speed"),
   (32, "laser_mode"),
   (100, "x_steps_per_mm"),
   (101, "y_steps_per_mm"),
   (102, "z_steps_per_mm"),
   (110, "x_max_rate"),
   (111, "y_max_rate"),
   (112, "z_max_rate"),
   (120, "x_acceleration"),
   (121, "y_acceleration"),
   (122, "z_acceleration"),
   (130, "x_max_travel"),
   (131, "y_max_travel"),
   (132, "z_max_travel")]

/-- Lookup in `SETTING_NUM_TO_KEY` (`SETTING_NUM_TO_KEY.get(n)`); the
numeric keys of the dict are pairwise distinct, so the first match is
the dict entry. -/
def settingNumToKey (n : Nat) : Option String :=
  (SETTING_NUM_TO_KEY.find? (fun p => p.1 == n)).map Prod.snd

/-- Lookup in the inverted dict `KEY_TO_SETTING_NUM`
(`KEY_TO_SETTING_NUM.get(key)`); a duplicated name maps to the last
index of the comprehension, hence the reversed search. -/
def keyToSettingNum (key : String) : Option Nat :=
  (SETTING_NUM_TO_KEY.reverse.find? (fun p => p.2 == key)).map Prod.fst

/-- C5 counterexample: the table is not a bijection on its entries.
Index 12 is in the table, `index_to_key(12)` is `arc_tolerance`, but
`key_to_index(arc_tolerance)` is 13 (indices 12 and 13 both carry the
name `arc_tolerance`, and the dict comprehension keeps the last), so
the index round trip fails at 12. -/
theorem c5_roundtrip_counterexample :
    (12, "arc_tolerance") ∈ SETTING_NUM_TO_KEY
    ∧ settingNumToKey 12 = some "arc_tolerance"
    ∧ keyToSettingNum "arc_tolerance" = some 13
    ∧ (settingNumToKey 12).bind keyToSettingNum = some 13
    ∧ (13 : Nat) ≠ 12 := by
  decide

/-- C5 amended: for every name in the table the round trip
`index_to_key(key_to_index(name)) = name` holds; for every index in the
table OTHER THAN 12 (whose name `arc_tolerance` is duplicated at index
13, which wins the inversion) the round trip
`key_to_index(index_to_key(index)) = index` holds; and the documented
GRBL assignments are preserved. -/
theorem c5_roundtrip_amended :
    (∀ p ∈ SETTING_NUM_TO_KEY,
      (keyToSettingNum p.2).bind settingNumToKey = some p.2
      ∧ (p.1 ≠ 12 → (settingNumToKey p.1).bind keyToSettingNum = some p.1))
    ∧ keyToSettingNum "x_steps_per_mm" = some 100
    ∧ keyToSettingNum "y_steps_per_mm" = some 101
    ∧ keyToSettingNum "z_steps_per_mm" = some 102
    ∧ keyToSettingNum "step_idle_delay" = some 1 := by
  decide

/-- C5 witness: the amended round trips evaluated on the concrete entry
`(100, x_steps_per_mm)`. -/
theorem c5_roundtrip_amended_witness :
    (keyToSettingNum "x_steps_per_mm").bind settingNumToKey = some "x_steps_per_mm"
    ∧ (settingNumToKey 100).bind keyToSettingNum = some 100 :=
  ⟨(c5_roundtrip_amended.1 (100, "x_steps_per_mm") (by decide)).1,
   (c5_roundtrip_amended.1 (100, "x_steps_per_mm") (by decide)).2 (by decide)⟩

/-! ## Settings cache and the update path

Embeds `GrblSettings` and `GrblConnection.update_setting` from
`src/api/schemas/grbl.py`.  The cache is a pydantic object with a fixed
attribute set (`settingsFields`); `hasattr` is membership in that set,
`getattr(self, key, None)` returns the stored optional value for a
present attribute and `None` otherwise.  Serial writes and cache
mutations are recorded as an explicit action trace, in program order.
-/

/-- The attribute names of `GrblSettings`, in declaration order. -/
def settingsFields : List String :=
  ["step_pulse_time", "step_idle_delay", "step_port_invert_mask",
   "direction_port_invert_mask", "step_enable_invert", "limit_pins_invert",
   "probe_pin_invert", "status_report_mask", "junction_deviation",
   "arc_tolerance", "report_inches", "soft_limits", "hard_limits",
   "homing_cycle", "homing_dir_invert_mask", "homing_feed_rate",
   "homing_seek_rate", "homing_debounce_delay", "homing_pull_off",
   "max_spindle_speed", "min_spindle_speed", "laser_mode",
   "x_steps_per_mm", "y_steps_per_mm", "z_steps_per_mm",
   "x_max_rate", "y_max_rate", "z_max_rate",
   "x_acceleration", "y_acceleration", "z_acceleration",
   "x_max_travel", "y_max_travel", "z_max_travel"]

/-- The settings cache: the stored optional float value of each
attribute (queried only at names in `settingsFields`). -/
structure GrblSettings where
  vals : String → Option Rat

/-- One observable side effect of the driver, in program order. -/
inductive Action where
  | writeCmd (s : String)
  | moveRel (x y : Option Rat) (feed : Option Int)
  | writeSetting (n : Nat) (v : Rat)
  | cacheSet (key : String) (v : Rat)
  | feedHold
  | softReset
  | resetInputBuffer
  | unlockAlarm
  | readAll
deriving DecidableEq

/-- `GrblSettings.get_setting_value` (schemas/grbl.py lines 112-122):
`getattr(self, key, None)`. -/
def getSettingValue (s : GrblSettings) (key : String) : Option Rat :=
  if settingsFields.contains key then s.vals key else none

/-- `GrblSettings.set_setting_value` (schemas/grbl.py lines 124-134):
raise on an unknown attribute, otherwise set it in the cache only. -/
def setSettingValue (s : GrblSettings) (key : String) (v : Rat) :
    Except String GrblSettings :=
  if settingsFields.contains key then
    Except.ok ⟨fun k => if k = key then some v else s.vals k⟩
  else
    Except.error ("Unknown setting key: " ++ key)

/-- `GrblConnection.update_setting` (schemas/grbl.py lines 151-165):
resolve the key through `KEY_TO_SETTING_NUM`; unknown keys raise before
any serial traffic; known keys write `$<index>=<value>` to the channel,
wait, and only then mutate the cache.  The returned trace lists the
serial write and the cache mutation in program order. -/
def updateSetting (s : GrblSettings) (key : String) (v : Rat) :
    List Action × Except String GrblSettings :=
  match keyToSettingNum key with
  | none => ([], Except.error ("Unknown setting key: " ++ key))
  | some n =>
    match setSettingValue s key v with
    | Except.ok s2 => ([Action.writeSetting n v, Action.cacheSet key v], Except.ok s2)
    | Except.error e => ([Action.writeSetting n v], Except.error e)

/-- Every name in the settings table is an attribute of the cache. -/
lemma table_keys_are_fields :
    ∀ p ∈ SETTING_NUM_TO_KEY, settingsFields.contains p.2 = true := by
  decide

/-- A key that resolves through the table is an attribute of the cache. -/
lemma keyToSettingNum_mem_fields {key : String} {n : Nat}
    (h : keyToSettingNum key = some n) : settingsFields.contains key = true := by
  unfold keyToSettingNum at h
  rcases hf : SETTING_NUM_TO_KEY.reverse.find? (fun p => p.2 == key) with _ | p
  · rw [hf] at h; simp at h
  · have hmem : p ∈ SETTING_NUM_TO_KEY.reverse := List.mem_of_find?_eq_some hf
    have hpred := List.find?_some hf
    have hkey : p.2 = key := by simpa using hpred
    subst hkey
    exact table_keys_are_fields p (List.mem_reverse.mp hmem)

/-- On a key known to the table, `update_setting` performs exactly a
serial write followed by a cache mutation and returns the updated
cache. -/
lemma updateSetting_known (s : GrblSettings) (key : String) (v : Rat) (n : Nat)
    (h : keyToSettingNum key = some n) :
    updateSetting s key v
      = ([Action.writeSetting n v, Action.cacheSet key v],
         Except.ok ⟨fun k => if k = key then some v else s.vals k⟩) := by
  unfold updateSetting setSettingValue
  rw [h, keyToSettingNum_mem_fields h]
  simp

/-- C8: `update_setting(key, value)` on a key absent from the fixed
name-to-index table raises a descriptive error with an empty side-effect
trace (no serial write, no cache mutation); on a known key it emits the
serial write of `$<index>=<value>` strictly before the cache mutation,
never the reverse, and the resulting cache holds the new value at that
key and is unchanged elsewhere. -/
theorem c8_updateSetting_order (s : GrblSettings) (key : String) (v : Rat) :
    (keyToSettingNum key = none →
      updateSetting s key v = ([], Except.error ("Unknown setting key: " ++ key)))
    ∧ (∀ n, keyToSettingNum key = some n →
      updateSetting s key v
        = ([Action.writeSetting n v, Action.cacheSet key v],
           Except.ok ⟨fun k => if k = key then some v else s.vals k⟩)) := by
  constructor
  · intro h
    unfold updateSetting
    rw [h]
  · intro n h
    exact updateSetting_known s key v n h

/-- A concrete settings cache used by witnesses: the defaults the
calibration code assumes (x 250, y 40, z 40 steps per mm). -/
def sampleSettings : GrblSettings :=
  ⟨fun k =>
    if k = "x_steps_per_mm" then some 250
    else if k = "y_steps_per_mm" then some 40
    else if k = "z_steps_per_mm" then some 40
    else none⟩

/-- C8 witness: the unknown-key branch at `bogus_key` and the known-key
branch at `step_idle_delay` (index 1), both on `sampleSettings`. -/
theorem c8_updateSetting_order_witness :
    updateSetting sampleSettings "bogus_key" 1
      = ([], Except.error ("Unknown setting key: " ++ "bogus_key"))
    ∧ (updateSetting sampleSettings "step_idle_delay" 255).1
      = [Action.writeSetting 1 255, Action.cacheSet "step_idle_delay" 255] :=
  ⟨(c8_updateSetting_order sampleSettings "bogus_key" 1).1 (by decide),
   by rw [(c8_updateSetting_order sampleSettings "step_idle_delay" 255).2 1 (by decide)]⟩

/-! ## Axis calibration

Embeds the CALIBRATION sections of `home_x_axis_fast` (calibration.py
lines 270-283) and `home_y_axis_fast` (lines 517-536): given the
measured axis length and the settings cache, compute the correction
factor and the new steps-per-mm value(s) and push them through
`GrblConnection.update_setting`.
-/

/-- Model of the Python expression `x or d` on an optional float:
`None` and `0.0` are falsy and select the default. -/
def pythonOrRat (x : Option Rat) (d : Rat) : Rat :=
  match x with
  | some v => if v = 0 then d else v
  | none => d

/-- The fixed known X axis length (calibration.py line 194). -/
def knownAxisLengthX : Rat := 291

/-- The fixed known Y axis length (calibration.py line 377). -/
def knownAxisLengthY : Rat := 899

/-- CALIBRATION section of `home_x_axis_fast`: returns
(correction factor, new x steps-per-mm, update-path result). -/
def calibrateXSection (totalDistance : Rat) (s : GrblSettings) :
    Rat × Rat × (List Action × Except String GrblSettings) :=
  let currentSteps := pythonOrRat (getSettingValue s "x_steps_per_mm") 250
  let correctionFactor := totalDistance / knownAxisLengthX
  let newSteps := currentSteps * correctionFactor
  (correctionFactor, newSteps, updateSetting s "x_steps_per_mm" newSteps)

/-- CALIBRATION section of `home_y_axis_fast`: returns
(correction factor, new y steps-per-mm, new z steps-per-mm,
update-path result); the y update runs before the z update, both
through `update_setting`. -/
def calibrateYSection (totalDistance : Rat) (s : GrblSettings) :
    Rat × Rat × Rat × (List Action × Except String GrblSettings) :=
  let currentY := pythonOrRat (getSettingValue s "y_steps_per_mm") 40
  let currentZ := pythonOrRat (getSettingValue s "z_steps_per_mm") 40
  let cf := totalDistance / knownAxisLengthY
  let newY := currentY * cf
  let newZ := currentZ * cf
  let r1 := updateSetting s "y_steps_per_mm" newY
  match r1.2 with
  | Except.error e => (cf, newY, newZ, (r1.1, Except.error e))
  | Except.ok s1 =>
    let r2 := updateSetting s1 "z_steps_per_mm" newZ
    (cf, newY, newZ, (r1.1 ++ r2.1, r2.2))

/-- C3: axis calibration computes `correction_factor =
measured_length / known_length` and the new steps-per-mm as the old
cached value times that factor; for the Y axis the coupled Z motor gets
the same factor; and all updates pass through the Settings Cache update
path (a `$n=value` serial write followed by the cache mutation, indices
100/101/102). -/
theorem c3_calibration_factor (mX mY : Rat) (s : GrblSettings) (oldX oldY oldZ : Rat)
    (hx : getSettingValue s "x_steps_per_mm" = some oldX) (hx0 : oldX ≠ 0)
    (hy : getSettingValue s "y_steps_per_mm" = some oldY) (hy0 : oldY ≠ 0)
    (hz : getSettingValue s "z_steps_per_mm" = some oldZ) (hz0 : oldZ ≠ 0) :
    (calibrateXSection mX s).1 = mX / 291
    ∧ (calibrateXSection mX s).2.1 = oldX * (mX / 291)
    ∧ (calibrateXSection mX s).2.2.1
        = [Action.writeSetting 100 (oldX * (mX / 291)),
           Action.cacheSet "x_steps_per_mm" (oldX * (mX / 291))]
    ∧ (calibrateYSection mY s).1 = mY / 899
    ∧ (calibrateYSection mY s).2.1 = oldY * (mY / 899)
    ∧ (calibrateYSection mY s).2.2.1 = oldZ * (mY / 899)
    ∧ (calibrateYSection mY s).2.2.2.1
        = [Action.writeSetting 101 (oldY * (mY / 899)),
           Action.cacheSet "y_steps_per_mm" (oldY * (mY / 899)),
           Action.writeSetting 102 (oldZ * (mY / 899)),
           Action.cacheSet "z_steps_per_mm" (oldZ * (mY / 899))] := by
  have h100 : keyToSettingNum "x_steps_per_mm" = some 100 := by decide
  have h101 : keyToSettingNum "y_steps_per_mm" = some 101 := by decide
  have h102 : keyToSettingNum "z_steps_per_mm" = some 102 := by decide
  have hox : pythonOrRat (getSettingValue s "x_steps_per_mm") 250 = oldX := by
    rw [hx]; simp [pythonOrRat, hx0]
  have hoy : pythonOrRat (getSettingValue s "y_steps_per_mm") 40 = oldY := by
    rw [hy]; simp [pythonOrRat, hy0]
  have hoz : pythonOrRat (getSettingValue s "z_steps_per_mm") 40 = oldZ := by
    rw [hz]; simp [pythonOrRat, hz0]
  have hupX := updateSetting_known s "x_steps_per_mm" (oldX * (mX / 291)) 100 h100
  have hupY := updateSetting_known s "y_steps_per_mm" (oldY * (mY / 899)) 101 h101
  have hupZ := updateSetting_known
    ⟨fun k => if k = "y_steps_per_mm" then some (oldY * (mY / 899)) else s.vals k⟩
    "z_steps_per_mm" (oldZ * (mY / 899)) 102 h102
  have hX : calibrateXSection mX s
      = (mX / 291, oldX * (mX / 291), updateSetting s "x_steps_per_mm" (oldX * (mX / 291))) := by
    simp only [calibrateXSection, knownAxisLengthX, hox]
  have hY : calibrateYSection mY s
      = (mY / 899, oldY * (mY / 899), oldZ * (mY / 899),
         ([Action.writeSetting 101 (oldY * (mY / 899)),
           Action.cacheSet "y_steps_per_mm" (oldY * (mY / 899)),
           Action.writeSetting 102 (oldZ * (mY / 899)),
           Action.cacheSet "z_steps_per_mm" (oldZ * (mY / 899))],
          (updateSetting
            ⟨fun k => if k = "y_steps_per_mm" then some (oldY * (mY / 899)) else s.vals k⟩
            "z_steps_per_mm" (oldZ * (mY / 899))).2)) := by
    simp only [calibrateYSection, knownAxisLengthY, hoy, hoz, hupY, hupZ]
    rfl
  refine ⟨?_, ?_, ?_, ?_, ?_, ?_, ?_⟩
  · rw [hX]
  · rw [hX]
  · rw [hX]; simp only [hupX]
  · rw [hY]
  · rw [hY]
  · rw [hY]
  · rw [hY]

/-- C3 witness: the concrete example of the spec evaluated on
`sampleSettings` (old x steps 250, known 291, measured 300 gives factor
300/291 and new steps 250 times that; y and z both scale by 300/899
when the y axis measures 300). -/
theorem c3_calibration_factor_witness :
    (calibrateXSection 300 sampleSettings).1 = 300 / 291
    ∧ (calibrateXSection 300 sampleSettings).2.1 = 250 * (300 / 291)
    ∧ (calibrateYSection 300 sampleSettings).2.1 = 40 * (300 / 899) :=
  ⟨(c3_calibration_factor 300 300 sampleSettings 250 40 40 (by decide) (by decide)
      (by decide) (by decide) (by decide) (by decide)).1,
   (c3_calibration_factor 300 300 sampleSettings 250 40 40 (by decide) (by decide)
      (by decide) (by decide) (by decide) (by decide)).2.1,
   (c3_calibration_factor 300 300 sampleSettings 250 40 40 (by decide) (by decide)
      (by decide) (by decide) (by decide) (by decide)).2.2.2.2.1⟩

/-! ## Retrying command execution

Embeds `send_command` from `src/api/modules/grbl.py` (lines 72-126).
The serial channel is modelled per attempt: `streams i` is the finite
list of raw lines `readline` yields during attempt `i` before the
per-attempt deadline elapses (the input buffer is reset at the start of
each attempt, so attempts see independent line lists).  The returned
write trace lists the bytes written to the channel, one
`command + "\n"` entry per attempt actually performed.
-/

structure GrblCommandRequest where
  command : String
  label : String
  retries : Int := 3
  timeout : Rat := 2

structure GrblCommandResponse where
  success : Bool
  response : String
  attempts : Nat
deriving DecidableEq

/-- One attempt's read loop: strip each line, skip blanks, accumulate
response parts, and stop at the first terminal line — `ok`
(case-insensitively, result `some true`) or a line starting with
`error:` or `alarm:` (result `some false`); `none` when the deadline
passes with no terminal line. -/
def processAttempt : List String → List String × Option Bool
  | [] => ([], none)
  | raw :: rest =>
    let line := pyStrip raw
    if line = "" then processAttempt rest
    else
      let lower := pyLower line
      if lower = "ok" then ([line], some true)
      else if pyStartsWith lower "error:" || pyStartsWith lower "alarm:" then ([line], some false)
      else
        let r := processAttempt rest
        (line :: r.1, r.2)

/-- The first line of the list that is nonempty after stripping. -/
def firstSignificant : List String → Option String
  | [] => none
  | raw :: rest =>
    let line := pyStrip raw
    if line = "" then firstSignificant rest else some line

/-- The retry loop of `send_command`: `fuel` is the remaining retry
budget, `attempts` the failed attempts so far, `last` the recorded
`last_response`, `writes` the serial bytes written so far. -/
def sendCommandGo (streams : Nat → List String) (command : String) :
    Nat → Nat → String → List String → GrblCommandResponse × List String
  | 0, attempts, last, writes => (⟨false, last, attempts⟩, writes)
  | fuel + 1, attempts, last, writes =>
    if (processAttempt (streams attempts)).2 = some true then
      (⟨true, String.intercalate "\n" (processAttempt (streams attempts)).1, attempts + 1⟩,
       writes ++ [command ++ "\n"])
    else
      sendCommandGo streams command fuel (attempts + 1)
        (String.intercalate "\n" (processAttempt (streams attempts)).1)
        (writes ++ [command ++ "\n"])

/-- `send_command`: run up to `retries` attempts starting from zero
attempts, an empty `last_response` and no serial traffic.  Always
returns a response value (the model is a total function, mirroring the
documented "never raises for a failed command"). -/
def sendCommand (req : GrblCommandRequest) (streams : Nat → List String) :
    GrblCommandResponse × List String :=
  sendCommandGo streams req.command req.retries.toNat 0 "" []

/-- If the first significant line of an attempt is `ok`
(case-insensitively), the attempt succeeds with that line as its sole
response part. -/
lemma processAttempt_ok (ls : List String) (l : String)
    (hf : firstSignificant ls = some l) (hok : pyLower l = "ok") :
    processAttempt ls = ([l], some true) := by
  induction ls with
  | nil => simp [firstSignificant] at hf
  | cons raw rest ih =>
    by_cases hb : pyStrip raw = ""
    · rw [firstSignificant] at hf
      simp only [hb, if_pos] at hf
      rw [processAttempt]
      simp only [hb]
      simpa using ih hf
    · rw [firstSignificant] at hf
      simp only [hb] at hf
      simp at hf
      subst hf
      rw [processAttempt]
      simp [hb, hok]

/-- If the first significant line of an attempt starts with `error:`
(after lowering), the attempt fails. -/
lemma processAttempt_error (ls : List String) (l : String)
    (hf : firstSignificant ls = some l)
    (he : pyStartsWith (pyLower l) "error:" = true) :
    (processAttempt ls).2 = some false := by
  induction ls with
  | nil => simp [firstSignificant] at hf
  | cons raw rest ih =>
    by_cases hb : pyStrip raw = ""
    · rw [firstSignificant] at hf
      simp only [hb, if_pos] at hf
      rw [processAttempt]
      simp only [hb]
      simpa using ih hf
    · rw [firstSignificant] at hf
      simp only [hb] at hf
      simp at hf
      subst hf
      have hne : pyLower (pyStrip raw) ≠ "ok" := by
        intro hq
        rw [hq] at he
        exact absurd he (by decide)
      rw [processAttempt]
      simp [hb, hne, he]

/-- When no attempt within the fuel budget succeeds, the loop exhausts
the budget and reports failure with all attempts consumed. -/
lemma sendCommandGo_exhaust (streams : Nat → List String) (command : String) :
    ∀ fuel attempts last writes,
      (∀ i, i < fuel → (processAttempt (streams (attempts + i))).2 ≠ some true) →
      (sendCommandGo streams command fuel attempts last writes).1.success = false
      ∧ (sendCommandGo streams command fuel attempts last writes).1.attempts
          = attempts + fuel := by
  intro fuel
  induction fuel with
  | zero => intro attempts _last writes _; simp [sendCommandGo]
  | succ n ih =>
    intro attempts last writes h
    have h0 : (processAttempt (streams attempts)).2 ≠ some true := by
      have := h 0 (by omega)
      simpa using this
    rw [sendCommandGo, if_neg h0]
    have hrec := ih (attempts + 1)
      (String.intercalate "\n" (processAttempt (streams attempts)).1)
      (writes ++ [command ++ "\n"])
      (by
        intro i hi
        have := h (i + 1) (by omega)
        have harith : attempts + (i + 1) = attempts + 1 + i := by omega
        rwa [harith] at this)
    refine ⟨hrec.1, ?_⟩
    rw [hrec.2]
    omega

/-- C2: `send_command` always returns a response value (it is a total
function of the request and channel); if the channel's first response
line on the first attempt is case-insensitively `ok`, the response has
`success = true` and `attempts = 1`; if every attempt within the retry
budget answers with a first line starting with `error:` (such as
`error:9`), the response has `success = false` and `attempts` equal to
the configured retries budget. -/
theorem c2_send_command_retries (req : GrblCommandRequest)
    (s1 s2 : Nat → List String) (l : String)
    (hr : 1 ≤ req.retries)
    (h1 : firstSignificant (s1 0) = some l) (hok : pyLower l = "ok")
    (herr : ∀ i, i < req.retries.toNat →
      ∃ e, firstSignificant (s2 i) = some e
        ∧ pyStartsWith (pyLower e) "error:" = true) :
    ((sendCommand req s1).1.success = true ∧ (sendCommand req s1).1.attempts = 1)
    ∧ ((sendCommand req s2).1.success = false
      ∧ ((sendCommand req s2).1.attempts : Int) = req.retries) := by
  constructor
  · have hk : ∃ k, req.retries.toNat = k + 1 := ⟨req.retries.toNat - 1, by omega⟩
    rcases hk with ⟨k, hk⟩
    unfold sendCommand
    rw [hk, sendCommandGo, processAttempt_ok (s1 0) l h1 hok]
    simp
  · have hall : ∀ i, i < req.retries.toNat →
        (processAttempt (s2 (0 + i))).2 ≠ some true := by
      intro i hi
      rcases herr i hi with ⟨e, hf, he⟩
      rw [Nat.zero_add]
      rw [processAttempt_error (s2 i) e hf he]
      simp
    have hex := sendCommandGo_exhaust s2 req.command req.retries.toNat 0 "" [] hall
    unfold sendCommand
    refine ⟨hex.1, ?_⟩
    rw [hex.2]
    simp
    omega

/-- C2 witness: a channel answering `ok` on the first line succeeds in
one attempt; a channel always answering `error:9` fails after the full
default budget of three attempts. -/
theorem c2_send_command_retries_witness :
    ((sendCommand ⟨"$X", "unlock", 3, 2⟩ (fun _ => ["ok"])).1.success = true
      ∧ (sendCommand ⟨"$X", "unlock", 3, 2⟩ (fun _ => ["ok"])).1.attempts = 1)
    ∧ ((sendCommand ⟨"$X", "unlock", 3, 2⟩ (fun _ => ["error:9"])).1.success = false
      ∧ ((sendCommand ⟨"$X", "unlock", 3, 2⟩ (fun _ => ["error:9"])).1.attempts : Int) = 3) :=
  c2_send_command_retries ⟨"$X", "unlock", 3, 2⟩ (fun _ => ["ok"]) (fun _ => ["error:9"])
    "ok" (by decide) (by decide) (by decide)
    (fun i _ => ⟨"error:9",
      by exact (by decide : firstSignificant ["error:9"] = some "error:9"),
      by decide⟩)

/-- C10: a request whose retries budget is zero or negative returns
`success = false`, `attempts = 0` and empty response text, and the
write trace is empty — nothing is written to the serial channel and no
attempt consumes channel input. -/
theorem c10_nonpositive_retries (req : GrblCommandRequest)
    (streams : Nat → List String) (h : req.retries ≤ 0) :
    sendCommand req streams = (⟨false, "", 0⟩, []) := by
  unfold sendCommand
  have h0 : req.retries.toNat = 0 := by omega
  rw [h0, sendCommandGo]

/-- C10 witness: a zero-retries request on a channel that would answer
`ok` still performs no attempt. -/
theorem c10_nonpositive_retries_witness :
    sendCommand ⟨"G1 X1", "move", 0, 2⟩ (fun _ => ["ok"]) = (⟨false, "", 0⟩, []) :=
  c10_nonpositive_retries ⟨"G1 X1", "move", 0, 2⟩ (fun _ => ["ok"]) (by decide)

/-! ## Rough-seek limit stop sequence

Embeds `move_until_limit_fast` from `src/api/services/calibration.py`
(lines 65-100).  The limit-controller polls are modelled by
`pollStates i`, the `state` field of the `i`-th `get_switch_state`
response; `fuel` bounds the unbounded polling loop (the Python loop
spins forever if the switch never reports pressed, which the model
renders as `none`).  Only the grbl-channel side effects are traced.
-/

/-- The recovery sequence issued on detecting the pressed switch:
feed hold (`!`), soft reset (`0x18`), input-buffer clear, alarm unlock
(`$X`), re-apply the maximum step idle delay (`$1=255`), drain. -/
def limitStopSequence : List Action :=
  [Action.feedHold, Action.softReset, Action.resetInputBuffer,
   Action.unlockAlarm, Action.writeSetting 1 255, Action.readAll]

/-- Poll until a pressed state (1) is seen, up to `fuel` polls. -/
def findPressed (pollStates : Nat → Int) : Nat → Nat → Option Nat
  | 0, _ => none
  | fuel + 1, i => if pollStates i = 1 then some i else findPressed pollStates fuel (i + 1)

/-- `move_until_limit_fast`: clear the grbl input buffer, issue one long
relative X move in the requested direction, then poll the limit
controller; on the first pressed poll, run the recovery sequence and
return success.  Result `none` models the non-terminating case. -/
def moveUntilLimitFast (direction : String) (maxDistance : Rat) (feed : Int)
    (pollStates : Nat → Int) (fuel : Nat) : Option (Bool × List Action) :=
  let moveAct :=
    if direction = "+" then Action.moveRel (some maxDistance) none (some feed)
    else Action.moveRel (some (-maxDistance)) none (some feed)
  match findPressed pollStates fuel 0 with
  | some _ => some (true, [Action.resetInputBuffer, moveAct] ++ limitStopSequence)
  | none => none

/-- C6: whenever `move_until_limit_fast` detects the target switch
pressed during the rough seek, it returns success and its grbl-channel
trace ends with feed hold, then soft reset, then buffer clear and alarm
unlock, then the re-applied maximum step-idle-delay write (`$1=255`),
in exactly that order. -/
theorem c6_rough_seek_stop_order (direction : String) (maxDistance : Rat)
    (feed : Int) (pollStates : Nat → Int) (fuel : Nat) (b : Bool) (tr : List Action)
    (h : moveUntilLimitFast direction maxDistance feed pollStates fuel = some (b, tr)) :
    b = true
    ∧ (∃ mv, tr = [Action.resetInputBuffer, mv]
        ++ [Action.feedHold, Action.softReset, Action.resetInputBuffer,
            Action.unlockAlarm, Action.writeSetting 1 255, Action.readAll]) := by
  unfold moveUntilLimitFast at h
  rcases hfp : findPressed pollStates fuel 0 with _ | i
  · rw [hfp] at h
    simp at h
  · rw [hfp] at h
    simp only [limitStopSequence, Option.some.injEq, Prod.mk.injEq] at h
    refine ⟨h.1.symm, ?_⟩
    refine ⟨if direction = "+" then Action.moveRel (some maxDistance) none (some feed)
            else Action.moveRel (some (-maxDistance)) none (some feed), ?_⟩
    exact h.2.symm

/-- C6 witness: a switch that reports pressed on the first poll during
a positive rough seek of 1000 mm at feed 800. -/
theorem c6_rough_seek_stop_order_witness :
    true = true
    ∧ (∃ mv, [Action.resetInputBuffer, Action.moveRel (some 1000) none (some 800)]
          ++ limitStopSequence
        = [Action.resetInputBuffer, mv]
          ++ [Action.feedHold, Action.softReset, Action.resetInputBuffer,
              Action.unlockAlarm, Action.writeSetting 1 255, Action.readAll]) :=
  c6_rough_seek_stop_order "+" 1000 800 (fun _ => 1) 1 true
    ([Action.resetInputBuffer, Action.moveRel (some 1000) none (some 800)]
      ++ limitStopSequence) rfl

/-! ## Origin setting in the full homing sequence

Embeds the origin-setting step of `home_all` from
`src/api/services/calibration.py` (lines 609-623): after both axes are
calibrated, the current position is queried (and only logged), then
`set_work_coordinate_offset(grbl_ser, x=0, y=0)` is issued — the
arguments are the constants 0 and 0 (formatted by the f-strings as
`"0"`), whatever the queried position or any measured limit position
was.
-/

/-- The G92 parts `home_all` emits, as a function of the queried
position (which the code only logs). -/
def homeAllOriginParts (pos : Option (Rat × Rat)) : List GPart :=
  setWorkCoordinateOffsetParts (some "0") (some "0") none

/-- The G92 command line `home_all` emits. -/
def homeAllOriginCommand (pos : Option (Rat × Rat)) : String :=
  renderParts (homeAllOriginParts pos)

/-- Semantics of `G92 X<a> Y<b>`: the current physical position is
declared to read `(a, b)`, so the new logical origin sits at the
current position minus the offsets (spec glossary: "redefining the
current physical position as a new logical origin"). -/
def g92Origin (currentPos offsets : Rat × Rat) : Rat × Rat :=
  (currentPos.1 - offsets.1, currentPos.2 - offsets.2)

/-- Modelled from the spec: "the origin is redefined to sit a fixed
offset (10 mm) inward from the front-left corner — computed from
whichever limit position was most recently measured, falling back to a
fixed constant offset if position data is unavailable".  Given the most
recently measured front-left-corner position, the spec origin is that
corner moved 10 mm inward on each axis; with no position data, a fixed
constant fallback. -/
def specCornerOrigin (corner : Option (Rat × Rat)) (fallback : Rat × Rat) : Rat × Rat :=
  match corner with
  | some c => (c.1 + 10, c.2 + 10)
  | none => fallback

/-- C4 counterexample: `home_all` emits the constant command
`G92 X0 Y0 Z0` — identical for different measured positions and for
missing position data — which pins the origin at the current (center)
position; with the front-left corner measured at `(-145, -449)` the
spec-modelled corner-derived origin is `(-135, -439)`, which is not
the origin the emitted command establishes at a gantry sitting at the
center `(0, 0)`. -/
theorem c4_origin_counterexample :
    homeAllOriginCommand (some (-145, -449)) = "G92 X0 Y0 Z0" ++ "\n"
    ∧ homeAllOriginCommand (some (-145, -449)) = homeAllOriginCommand none
    ∧ g92Origin (0, 0) (0, 0) = (0, 0)
    ∧ specCornerOrigin (some (-145, -449)) (0, 0) = (-135, -439)
    ∧ specCornerOrigin (some (-145, -449)) (0, 0) ≠ g92Origin (0, 0) (0, 0) := by
  refine ⟨rfl, rfl, by norm_num [g92Origin], by norm_num [specCornerOrigin], ?_⟩
  simp only [specCornerOrigin, g92Origin]
  intro hq
  rw [Prod.mk.injEq] at hq
  have := hq.1
  norm_num at this

/-- C4 amended: after both axes are calibrated, `home_all` issues the
work-coordinate-offset command `G92 X0 Y0 Z0` (Z coupled to Y), whose
offsets are the fixed constants 0 — independent of any queried or
measured position — so the origin is redefined at the current position,
the measured center, and subsequent absolute moves are relative to that
center origin (no 10 mm corner-derived offset is applied; a 10 mm
margin figures only in the optional workspace outline). -/
theorem c4_origin_amended (pos : Option (Rat × Rat)) (c : Rat × Rat) :
    homeAllOriginParts pos
      = [GPart.word "G92", GPart.X "0", GPart.Y "0", GPart.Z "0"]
    ∧ homeAllOriginCommand pos = "G92 X0 Y0 Z0" ++ "\n"
    ∧ g92Origin c (0, 0) = c := by
  refine ⟨rfl, rfl, ?_⟩
  simp [g92Origin]

/-! ## Limit-controller telemetry reader

Embeds `read_limit_controller_data`, `get_switch_state`,
`check_switch_pressed` and `get_pressed_switch_id` from
`src/api/modules/limits.py`.  A received line is modelled by the
outcome of the Python decode steps: `notJson` for a stripped line that
does not start with an opening brace, `badJson` for one that does but
on which `json.loads` raises, and `obj device switches` for a parsed
object, where `device` is `json_data.get` of the device field and
`switches` the optional list of switch entries, each carrying the
optional `id` and `state` fields of one entry.  A reader call is a
function of the list of lines readable before its deadline.
-/

structure SwitchEntry where
  id : Option Int
  state : Option Int
deriving DecidableEq

inductive LimitLine where
  | notJson
  | badJson
  | obj (device : Option String) (switches : Option (List SwitchEntry))
deriving DecidableEq

structure LimitSwitch where
  id : Int
  state : Int
deriving DecidableEq

structure LimitControllerData where
  device : String
  switches : List LimitSwitch
deriving DecidableEq

structure LimitSwitchStateResponse where
  switchId : Int
  state : Int
  found : Bool
deriving DecidableEq

/-- Build the pydantic `LimitSwitch` list
(`LimitSwitch(id=s.get('id'), state=s.get('state', 0))` per entry):
a missing `id` raises a validation error, which makes the whole line
fail (`none`); a missing `state` defaults to 0. -/
def mkLimitSwitches : List SwitchEntry → Option (List LimitSwitch)
  | [] => some []
  | e :: es =>
    match e.id with
    | none => none
    | some i =>
      match mkLimitSwitches es with
      | none => none
      | some rest => some (⟨i, e.state.getD 0⟩ :: rest)

/-- `read_limit_controller_data` (limits.py lines 82-111): the first
line that parses as JSON, whose `device` field equals
`limit-controller` and whose switch list validates, yields a frame;
all other lines are skipped; `none` on deadline. -/
def readLimitControllerData : List LimitLine → Option LimitControllerData
  | [] => none
  | l :: rest =>
    match l with
    | .obj (some d) sw =>
      if d = "limit-controller" then
        match mkLimitSwitches (sw.getD []) with
        | some switches => some ⟨d, switches⟩
        | none => readLimitControllerData rest
      else readLimitControllerData rest
    | _ => readLimitControllerData rest

/-- The state of the first entry whose `id` field equals `switchId`
(`switch.get('state', 0)` defaulting a missing state to 0). -/
def findSwitchEntry : List SwitchEntry → Int → Option Int
  | [], _ => none
  | e :: es, switchId =>
    if e.id = some switchId then some (e.state.getD 0) else findSwitchEntry es switchId

/-- `get_switch_state` (limits.py lines 113-152): scan parsed JSON
lines — the device field is NOT inspected — for an entry with the
requested id; timeout yields `found = false, state = 0`. -/
def getSwitchState : List LimitLine → Int → LimitSwitchStateResponse
  | [], switchId => ⟨switchId, 0, false⟩
  | l :: rest, switchId =>
    match l with
    | .obj _ sw =>
      match findSwitchEntry (sw.getD []) switchId with
      | some st => ⟨switchId, st, true⟩
      | none => getSwitchState rest switchId
    | _ => getSwitchState rest switchId

/-- One entry satisfies `switch.get('id') in switch_ids and
switch.get('state') == 1` (no default for the state here). -/
def entryPressedIn (ids : List Int) (e : SwitchEntry) : Bool :=
  match e.id with
  | some i => ids.contains i && e.state == some 1
  | none => false

/-- `check_switch_pressed` (limits.py lines 170-202): true as soon as
any parsed JSON line — device field NOT inspected — holds a pressed
entry with a requested id. -/
def checkSwitchPressed : List LimitLine → List Int → Bool
  | [], _ => false
  | l :: rest, ids =>
    match l with
    | .obj _ sw =>
      if (sw.getD []).any (entryPressedIn ids) then true else checkSwitchPressed rest ids
    | _ => checkSwitchPressed rest ids

/-- The `id` of the first pressed entry among the requested ids. -/
def firstPressedId : List SwitchEntry → List Int → Option Int
  | [], _ => none
  | e :: es, ids => if entryPressedIn ids e then e.id else firstPressedId es ids

/-- `get_pressed_switch_id` (limits.py lines 204-236): the id of the
first pressed requested switch on any parsed JSON line — device field
NOT inspected; `none` on deadline. -/
def getPressedSwitchId : List LimitLine → List Int → Option Int
  | [], _ => none
  | l :: rest, ids =>
    match l with
    | .obj _ sw =>
      match firstPressedId (sw.getD []) ids with
      | some i => some i
      | none => getPressedSwitchId rest ids
    | _ => getPressedSwitchId rest ids

/-- C7 counterexample: a line whose `device` field is `other-device`
(not the expected peripheral identifier) carrying switch 3 with state 1
is ignored by `read_limit_controller_data`, but it DOES contribute a
switch state to `get_switch_state`, a pressed result to
`check_switch_pressed` and a pressed id to `get_pressed_switch_id` —
those three never inspect the device field. -/
theorem c7_device_filter_counterexample :
    readLimitControllerData
        [LimitLine.obj (some "other-device") (some [⟨some 3, some 1⟩])] = none
    ∧ getSwitchState
        [LimitLine.obj (some "other-device") (some [⟨some 3, some 1⟩])] 3
        = ⟨3, 1, true⟩
    ∧ checkSwitchPressed
        [LimitLine.obj (some "other-device") (some [⟨some 3, some 1⟩])] [3] = true
    ∧ getPressedSwitchId
        [LimitLine.obj (some "other-device") (some [⟨some 3, some 1⟩])] [3]
        = some 3 := by
  decide

/-- C7 amended: every telemetry-reading operation ignores malformed
lines (non-JSON text and JSON that fails to parse): such a line never
contributes a frame, a switch state or a pressed result; but only
`read_limit_controller_data` additionally ignores foreign-device lines
— `get_switch_state`, `check_switch_pressed` and
`get_pressed_switch_id` accept any parsed JSON line regardless of its
device field. -/
theorem c7_malformed_skipped (l : LimitLine) (rest : List LimitLine)
    (id : Int) (ids : List Int) (d : Option String) (sw : Option (List SwitchEntry)) :
    (l = LimitLine.notJson ∨ l = LimitLine.badJson →
      readLimitControllerData (l :: rest) = readLimitControllerData rest
      ∧ getSwitchState (l :: rest) id = getSwitchState rest id
      ∧ checkSwitchPressed (l :: rest) ids = checkSwitchPressed rest ids
      ∧ getPressedSwitchId (l :: rest) ids = getPressedSwitchId rest ids)
    ∧ (d ≠ some "limit-controller" →
      readLimitControllerData (LimitLine.obj d sw :: rest)
        = readLimitControllerData rest) := by
  constructor
  · intro hl
    rcases hl with hl | hl <;> subst hl <;>
      exact ⟨rfl, rfl, rfl, rfl⟩
  · intro hd
    rcases d with _ | dd
    · rfl
    · have hdd : dd ≠ "limit-controller" := by
        intro hq; exact hd (by rw [hq])
      rw [readLimitControllerData]
      simp [hdd]

/-- C7 witness: the amended skipping behavior evaluated on a malformed
line and on a foreign-device line. -/
theorem c7_malformed_skipped_witness :
    readLimitControllerData [LimitLine.badJson] = readLimitControllerData []
    ∧ readLimitControllerData [LimitLine.obj (some "other-device") none]
        = readLimitControllerData [] :=
  ⟨((c7_malformed_skipped LimitLine.badJson [] 0 [] none none).1 (Or.inr rfl)).1,
   (c7_malformed_skipped LimitLine.badJson [] 0 []
     (some "other-device") none).2 (by decide)⟩

/-! ## Settings-dump parsing

Embeds `parse_settings` from `src/api/modules/grbl.py` (lines 8-33):
split the response on newlines; strip each line; skip lines that are
empty, do not start with a dollar sign, or contain no equals sign;
parse the integer after the dollar sign and the float before any
opening parenthesis; skip (never raise on) lines where either parse
fails; later lines overwrite earlier entries for the same index, as a
Python dict does.
-/

/-- Insert into the dict model: overwrite in place if the key is
present, else append (Python dict insertion-order semantics). -/
def dictSet (d : List (Int × Rat)) (k : Int) (v : Rat) : List (Int × Rat) :=
  if d.any (fun p => p.1 == k) then d.map (fun p => if p.1 == k then (k, v) else p)
  else d ++ [(k, v)]

/-- The value segment of a line as the source computes it:
`line.split('=')[1].split('(')[0].strip()` (empty when no equals sign
is present, in which case the guard has already skipped the line). -/
def valueSegment (rawLine : String) : String :=
  pyStrip ((pySplitChar ((pySplitChar (pyStrip rawLine) '=').getD 1 "") '(').headD "")

/-- Parse one line of a `$$` dump; `none` models every skipped line. -/
def parseSettingsLine (rawLine : String) : Option (Int × Rat) :=
  let line := pyStrip rawLine
  if line = "" then none
  else if pyStartsWith line "$" = false then none
  else if pyContainsChar line '=' = false then none
  else
    let settingPart := (pySplitChar line '=').headD ""
    match pyInt? (⟨settingPart.data.drop 1⟩ : String) with
    | none => none
    | some n =>
      match pyFloat? (valueSegment rawLine) with
      | none => none
      | some v => some (n, v)

/-- Fold the parsed lines into the settings dict. -/
def parseSettingsLines (ls : List String) : List (Int × Rat) :=
  ls.foldl
    (fun d line =>
      match parseSettingsLine line with
      | some nv => dictSet d nv.1 nv.2
      | none => d)
    []

/-- `parse_settings`: split the dump on newlines and fold. -/
def parseSettings (text : String) : List (Int × Rat) :=
  parseSettingsLines (pySplitChar text '\n')

/-- A sample well-formed `$$` dump containing the documented line. -/
def sampleDump : String :=
  "$0=10 (step pulse, usec)\n$1=25 (step idle delay, msec)\n$100=250.000 (x, step/mm)\nok"

/-- A line that fails to parse leaves the fold state unchanged. -/
lemma parseSettingsLines_skip (pre post : List String) (line : String)
    (h : parseSettingsLine line = none) :
    parseSettingsLines (pre ++ line :: post) = parseSettingsLines (pre ++ post) := by
  unfold parseSettingsLines
  rw [List.foldl_append, List.foldl_append]
  rw [List.foldl_cons, h]

/-- A line whose value segment is not numeric never parses. -/
lemma parseSettingsLine_bad_value (line : String)
    (h : pyFloat? (valueSegment line) = none) :
    parseSettingsLine line = none := by
  unfold parseSettingsLine
  by_cases h1 : pyStrip line = ""
  · simp [h1]
  · by_cases h2 : pyStartsWith (pyStrip line) "$" = false
    · simp [h1, h2]
    · by_cases h3 : pyContainsChar (pyStrip line) '=' = false
      · simp [h1, h2, h3]
      · simp only [h1, h2, h3, if_neg, if_false]
        rcases hint : pyInt?
            (⟨((pySplitChar (pyStrip line) '=').headD "").data.drop 1⟩ : String) with _ | n
        · simp [hint]
        · simp [hint, h]

/-- When no line of the list parses, the fold yields the empty dict. -/
lemma parseSettingsLines_all_none (ls : List String)
    (h : ∀ l ∈ ls, parseSettingsLine l = none) : parseSettingsLines ls = [] := by
  unfold parseSettingsLines
  induction ls with
  | nil => rfl
  | cons a as ih =>
    rw [List.foldl_cons, h a (by simp)]
    exact ih (fun l hl => h l (by simp [hl]))

/-- C9: `parse_settings` maps the line `$100=250.000 (x, step/mm)` in a
well-formed dump to the entry `(100, 250.0)`; an input none of whose
stripped lines starts with a dollar sign yields the empty mapping, as
does an input none of whose stripped lines contains an equals sign; and
on every input, a line whose value segment is not numeric is skipped
without contributing (and without raising — the parser is total). -/
theorem c9_parse_settings (textA textB : String) (pre post : List String) (line : String)
    (hnd : ∀ l ∈ pySplitChar textA '\n', pyStartsWith (pyStrip l) "$" = false)
    (hne : ∀ l ∈ pySplitChar textB '\n', pyContainsChar (pyStrip l) '=' = false)
    (hbad : pyFloat? (valueSegment line) = none) :
    parseSettingsLine "$100=250.000 (x, step/mm)" = some (100, 250)
    ∧ parseSettings sampleDump = [(0, 10), (1, 25), (100, 250)]
    ∧ parseSettings textA = []
    ∧ parseSettings textB = []
    ∧ parseSettingsLines (pre ++ line :: post) = parseSettingsLines (pre ++ post) := by
  refine ⟨by decide, by decide, ?_, ?_, parseSettingsLines_skip pre post line
    (parseSettingsLine_bad_value line hbad)⟩
  · refine parseSettingsLines_all_none _ ?_
    intro l hl
    unfold parseSettingsLine
    by_cases h1 : pyStrip l = ""
    · simp [h1]
    · simp [h1, hnd l hl]
  · refine parseSettingsLines_all_none _ ?_
    intro l hl
    unfold parseSettingsLine
    by_cases h1 : pyStrip l = ""
    · simp [h1]
    · by_cases h2 : pyStartsWith (pyStrip l) "$" = false
      · simp [h1, h2]
      · simp [h1, h2, hne l hl]

/-- C9 witness: the empty-mapping cases on a dump with no dollar lines
and on one with no equals lines, and the skip case on a non-numeric
value segment. -/
theorem c9_parse_settings_witness :
    parseSettings "Grbl 1.1f\nok" = []
    ∧ parseSettings "$X\nok" = []
    ∧ parseSettingsLines (["$100=250.000"] ++ "$1=abc" :: ["$2=5"])
        = parseSettingsLines (["$100=250.000"] ++ ["$2=5"]) :=
  ⟨(c9_parse_settings "Grbl 1.1f\nok" "$X\nok" [] [] "$1=abc"
      (by decide) (by decide) (by decide)).2.2.1,
   (c9_parse_settings "Grbl 1.1f\nok" "$X\nok" [] [] "$1=abc"
      (by decide) (by decide) (by decide)).2.2.2.1,
   (c9_parse_settings "Grbl 1.1f\nok" "$X\nok" ["$100=250.000"] ["$2=5"] "$1=abc"
      (by decide) (by decide) (by decide)).2.2.2.2⟩

end LaserController
